import Mathlib

/-!
Verification development for the rift-engine frontend and its engine
contracts.  Definitions are shallow embeddings of the TypeScript sources
(`frontend/lib/champions`, `frontend/components/ConfidenceMeter`,
`frontend/components/ChampionInput`, the Simulate and Coach pages); the
match-simulation and MCTS engines themselves are not part of the source
tree, so the definitions covering them are modelled from the spec, as
marked in their doc comments.
-/

namespace RiftEngine

/-! ### Static enumeration tables (frontend/lib/champions) -/

/-- The champion roster, verbatim from the source table. -/
def CHAMPIONS : List String := [
  "Aatrox", "Ahri", "Akali", "Akshan", "Alistar", "Amumu", "Anivia", "Annie", "Aphelios", "Ashe",
  "AurelionSol", "Azir", "Bard", "BelVeth", "Blitzcrank", "Brand", "Braum", "Briar", "Caitlyn", "Camille",
  "Cassiopeia", "ChoGath", "Corki", "Darius", "Diana", "DrMundo", "Draven", "Ekko", "Elise", "Evelynn",
  "Ezreal", "Fiddlesticks", "Fiora", "Fizz", "Galio", "Gangplank", "Garen", "Gnar", "Gragas", "Graves",
  "Gwen", "Hecarim", "Heimerdinger", "Hwei", "Illaoi", "Irelia", "Ivern", "Janna", "JarvanIV", "Jax",
  "Jayce", "Jhin", "Jinx", "KSante", "KaiSa", "Kalista", "Karma", "Karthus", "Kassadin", "Katarina",
  "Kayle", "Kayn", "Kennen", "KhaZix", "Kindred", "Kled", "KogMaw", "LeBlanc", "LeeSin", "Leona",
  "Lillia", "Lissandra", "Lucian", "Lulu", "Lux", "Malphite", "Malzahar", "Maokai", "MasterYi", "MissFortune",
  "Mordekaiser", "Morgana", "Nami", "Nasus", "Nautilus", "Neeko", "Nidalee", "Nilah", "Nocturne", "Nunu",
  "Olaf", "Orianna", "Ornn", "Pantheon", "Poppy", "Pyke", "Qiyana", "Quinn", "Rakan", "Rammus",
  "RekSai", "Rell", "Renata", "Renekton", "Rengar", "Riven", "Rumble", "Ryze", "Samira", "Sejuani",
  "Senna", "Seraphine", "Sett", "Shaco", "Shen", "Shyvana", "Singed", "Sion", "Sivir", "Skarner",
  "Smolder", "Sona", "Soraka", "Swain", "Sylas", "Syndra", "TahmKench", "Taliyah", "Talon", "Taric",
  "Teemo", "Thresh", "Tristana", "Trundle", "Tryndamere", "TwistedFate", "Twitch", "Udyr", "Urgot", "Varus",
  "Vayne", "Veigar", "VelKoz", "Vex", "Vi", "Viego", "Viktor", "Vladimir", "Volibear", "Warwick",
  "Wukong", "Xayah", "Xerath", "XinZhao", "Yasuo", "Yone", "Yorick", "Yuumi", "Zac", "Zed",
  "Zeri", "Ziggs", "Zilean", "Zoe", "Zyra"]

/-- The role enumeration. -/
def ROLES : List String := ["Top", "Jungle", "Mid", "ADC", "Support"]

/-- The summoner-spell enumeration. -/
def SUMMONER_SPELLS : List String :=
  ["Flash", "Ignite", "Teleport", "Barrier", "Exhaust", "Cleanse", "Ghost", "Heal"]

/-- The lane-position enumeration. -/
def POSITIONS : List String := ["under_tower", "safe", "middle", "extended", "river"]

/-- The wave-position enumeration. -/
def WAVE_POSITIONS : List String :=
  ["frozen_near_me", "pushing_to_me", "middle", "slow_push_to_them", "crashed"]

/-- The enemy-jungler-location enumeration. -/
def ENEMY_JG_LOCATIONS : List String := ["topside", "botside", "mid", "unknown"]

/-- JS `String.prototype.toLowerCase()` on the ASCII strings this app uses:
lowercase every character. -/
def lowerStr (s : String) : String := ⟨s.data.map Char.toLower⟩

/-! ### Draft model (Simulate page) -/

/-- A single draft pick: `{ champion_id, role }`. -/
structure Pick where
  champion_id : String
  role : String
deriving DecidableEq, Repr

/-- The Simulate page's default blue-side champions. -/
def DEFAULTS_blue : List String := ["Renekton", "LeeSin", "Ahri", "Jinx", "Thresh"]

/-- The Simulate page's default red-side champions. -/
def DEFAULTS_red : List String := ["Gnar", "Viego", "Syndra", "Kaisa", "Nautilus"]

/-- Initial draft state:
`ROLES.map((r, i) => ({ champion_id: defaults[i], role: r.toLowerCase() }))`. -/
def initDraft (defaults : List String) : List Pick :=
  ROLES.enum.map (fun ri => { champion_id := defaults.getD ri.1 "", role := lowerStr ri.2 })

/-- `updatePick`: `prev.map((p, i) => i === idx ? { ...p, champion_id: champ } : p)`. -/
def updatePick (prev : List Pick) (idx : Nat) (champ : String) : List Pick :=
  prev.enum.map (fun ip => if ip.1 = idx then { ip.2 with champion_id := champ } else ip.2)

/-- The draft states a side of the Simulate page can reach: the initial
blue or red draft, closed under `updatePick`. -/
inductive DraftReachable : List Pick → Prop
  | init_blue : DraftReachable (initDraft DEFAULTS_blue)
  | init_red : DraftReachable (initDraft DEFAULTS_red)
  | update (d : List Pick) (idx : Nat) (champ : String) :
      DraftReachable d → DraftReachable (updatePick d idx champ)

/-! ### ConfidenceMeter (frontend/components/ConfidenceMeter) -/

/-- Split a leading run of decimal digits off a character list. -/
def takeDigits : List Char → List Char × List Char
  | [] => ([], [])
  | c :: cs => if c.isDigit then ((c :: (takeDigits cs).1), (takeDigits cs).2) else ([], c :: cs)

/-- The JS regex search `label.match(/(\d+)%/)`: scanning left to right,
at each position take the maximal digit run; the match succeeds when that
run is non-empty and immediately followed by a percent sign (backtracking
inside `\d+%` can never succeed, so on failure the scan advances one
character). Returns capture group 1, the digit run. -/
def findPct : List Char → Option (List Char)
  | [] => none
  | c :: cs =>
    if c.isDigit then
      match (takeDigits (c :: cs)).2 with
      | '%' :: _ => some (takeDigits (c :: cs)).1
      | _ => findPct cs
    else findPct cs

/-- `parseInt` on a non-empty decimal digit string. -/
def digitsVal (ds : List Char) : Nat :=
  ds.foldl (fun a c => a * 10 + (c.toNat - 48)) 0

/-- `const pct = match ? parseInt(match[1]) : 50`. -/
def pctOf (label : String) : Nat :=
  match findPct label.data with
  | some ds => digitsVal ds
  | none => 50

/-- `pct >= 60 ? green : pct >= 35 ? amber : red` (Tailwind color classes). -/
def colorClass (pct : Nat) : String :=
  if pct ≥ 60 then "bg-[#3fb950]" else if pct ≥ 35 then "bg-[#d29922]" else "bg-[#f85149]"

/-- Ordering of the three buckets: red < amber < green. -/
def bucketRank (s : String) : Nat :=
  if s = "bg-[#3fb950]" then 2 else if s = "bg-[#d29922]" then 1 else 0

/-- The rendered bar width, `` `${pct}%` ``. -/
def barWidth (label : String) : String :=
  toString (pctOf label) ++ "%"

/-- The label contains a (non-empty) substring of digits immediately
followed by a percent sign. -/
def hasDigitPct (l : List Char) : Prop :=
  ∃ pre d post, l = pre ++ d ++ ('%' :: post) ∧ d ≠ [] ∧ ∀ c ∈ d, c.isDigit = true

/-! ### ChampionInput (frontend/components/ChampionInput) -/

/-- Does the pattern start the text? (first step of JS `String.includes`). -/
def startsWithL : List Char → List Char → Bool
  | [], _ => true
  | _ :: _, [] => false
  | a :: as, b :: bs => a == b && startsWithL as bs

/-- JS `text.includes(pattern)`: the pattern occurs contiguously in the text. -/
def containsSub (t p : List Char) : Bool :=
  match t with
  | [] => p.isEmpty
  | c :: rest => startsWithL p (c :: rest) || containsSub rest p

/-- The suggestion list:
`CHAMPIONS.filter(c => c.toLowerCase().includes((filter || value).toLowerCase())).slice(0, 8)`;
JS `filter || value` falls through to `value` when `filter` is the empty string. -/
def championSuggestions (filter value : String) : List String :=
  (CHAMPIONS.filter (fun c =>
    containsSub (lowerStr c).data (lowerStr (if filter = "" then value else filter)).data)).take 8

/-! ### Coach page (runAnalysis) -/

/-- The Coach page's slider/selector state. -/
structure GameState where
  my_hp_pct : ℚ
  enemy_hp_pct : ℚ
  my_level : ℕ
  enemy_level : ℕ
  wave_position : String
  my_position : String
  game_time : ℕ
  my_mana_pct : ℚ

/-- The flat lane-state record the Coach page posts to `/mcts/recommend`. -/
structure LaneState where
  my_champion_id : String
  my_hp : ℚ
  my_hp_max : ℚ
  my_mana : ℚ
  my_mana_max : ℚ
  my_level : ℕ
  my_xp_to_next : ℚ
  my_q_cd : ℚ
  my_w_cd : ℚ
  my_e_cd : ℚ
  my_r_cd : ℚ
  my_flash_cd : ℚ
  my_summ2_cd : ℚ
  my_summ2_type : String
  my_position : String
  my_gold : ℚ
  my_items : List String
  my_combat_power : ℚ
  enemy_champion_id : String
  enemy_hp : ℚ
  enemy_hp_max : ℚ
  enemy_mana_est : ℚ
  enemy_level : ℕ
  enemy_q_cd_est : ℚ
  enemy_w_cd_est : ℚ
  enemy_e_cd_est : ℚ
  enemy_r_cd_est : ℚ
  enemy_flash_cd_est : ℚ
  enemy_position : String
  enemy_combat_power : ℚ
  my_minions : ℕ
  enemy_minions : ℕ
  wave_position : String
  is_cannon_wave : Bool
  enemy_jg_last_seen : ℚ
  enemy_jg_location : String
  ally_jg_position : String
  dragon_timer : ℚ
  herald_timer : ℚ
  my_tower_hp : ℚ
  enemy_tower_hp : ℚ
  game_time : ℕ
  phase : String

/-- The `state` object built inside the Coach page's `runAnalysis`,
field for field. -/
def runAnalysisState (myChamp enemyChamp summ2 : String) (gs : GameState) : LaneState :=
  let hpMax : ℚ := 570 + ((gs.my_level : ℚ) - 1) * 90
  let enemyHpMax : ℚ := 523 + ((gs.enemy_level : ℚ) - 1) * 85
  let manaMax : ℚ := 418 + ((gs.my_level : ℚ) - 1) * 25
  { my_champion_id := myChamp
    my_hp := gs.my_hp_pct / 100 * hpMax
    my_hp_max := hpMax
    my_mana := gs.my_mana_pct / 100 * manaMax
    my_mana_max := manaMax
    my_level := gs.my_level
    my_xp_to_next := 280
    my_q_cd := 0
    my_w_cd := 0
    my_e_cd := 0
    my_r_cd := if gs.my_level ≥ 6 then 0 else 80
    my_flash_cd := 0
    my_summ2_cd := 0
    my_summ2_type := lowerStr summ2
    my_position := gs.my_position
    my_gold := 500 + (gs.game_time : ℚ) * 2
    my_items := []
    my_combat_power := 100 + (gs.my_level : ℚ) * 15
    enemy_champion_id := enemyChamp
    enemy_hp := gs.enemy_hp_pct / 100 * enemyHpMax
    enemy_hp_max := enemyHpMax
    enemy_mana_est := 200
    enemy_level := gs.enemy_level
    enemy_q_cd_est := 0
    enemy_w_cd_est := 0
    enemy_e_cd_est := 0
    enemy_r_cd_est := if gs.enemy_level ≥ 6 then 0 else 80
    enemy_flash_cd_est := 0
    enemy_position := "middle"
    enemy_combat_power := 100 + (gs.enemy_level : ℚ) * 15
    my_minions := 6
    enemy_minions := 6
    wave_position := gs.wave_position
    is_cannon_wave := false
    enemy_jg_last_seen := 999
    enemy_jg_location := "unknown"
    ally_jg_position := "unknown"
    dragon_timer := 300
    herald_timer := 840
    my_tower_hp := 100
    enemy_tower_hp := 100
    game_time := gs.game_time
    phase := if gs.game_time ≥ 1500 then "late" else if gs.game_time ≥ 840 then "mid" else "early" }

/-- The Coach page's initial slider state (`useState` defaults). -/
def defaultGs : GameState :=
  { my_hp_pct := 80, enemy_hp_pct := 75, my_level := 3, enemy_level := 3
    wave_position := "middle", my_position := "middle", game_time := 210, my_mana_pct := 70 }

/-- The spec's phase derivation rule, stated in the spec's own words for the
refinement comparison: early if game_time < 840, mid if < 1500, else late. -/
def specPhase (game_time : ℕ) : String :=
  if game_time < 840 then "early" else if game_time < 1500 then "mid" else "late"

/-- The seed the Simulate page attaches to each request:
`Math.floor(Math.random() * 100000)`, with `Math.random()` an arbitrary
draw `r` in `[0, 1)`. -/
def seedOf (r : ℚ) : ℤ := ⌊r * 100000⌋

/-! ### Match simulation engine (modelled) -/

/-- Modelled from the spec: the seeded pseudorandom stream of §4.1.  The
engine itself is not in the source tree; the spec requires every draw to
come from a stream fixed by the request's seed, embodied here as a 64-bit
linear congruential step. -/
def lcgNext (s : ℕ) : ℕ := (6364136223846793005 * s + 1442695040888963407) % 2 ^ 64

/-- One `{time, gold_diff}` sample of the gold curve. -/
structure GoldPoint where
  time : ℕ
  gold_diff : ℤ

/-- One `{time, event_type, description}` timeline entry. -/
structure TimelineEvent where
  time : ℕ
  event_type : String
  description : String

/-- The SimulationResult record of §3 (champion reports omitted as they
play no role in the claims settled here). -/
structure SimulationResult where
  winner : String
  duration_minutes : ℕ
  blue_win_probability : ℚ
  gold_curve : List GoldPoint
  timeline : List TimelineEvent

/-- A MatchRequest: two team ids, two drafts, a seed. -/
structure MatchRequest where
  blue_team_id : String
  red_team_id : String
  blue_draft : List Pick
  red_draft : List Pick
  seed : ℕ

/-- Modelled from the spec: one minute tick of the simulator's loop,
threading the pseudorandom state and appending one gold-curve sample. -/
def simMinuteStep (acc : ℕ × ℤ × List GoldPoint) (minute : ℕ) : ℕ × ℤ × List GoldPoint :=
  match acc with
  | (s, g, curve) =>
    let s' := lcgNext s
    let g' := g + ((s' % 1001 : ℕ) : ℤ) - 500
    (s', g', curve ++ [{ time := minute, gold_diff := g' }])

/-- Modelled from the spec: the `simulate` endpoint (§4.2/§6) is not in the
source tree.  Per the spec, every pseudorandom draw comes from the stream
fixed by `req.seed`, so the result is a pure function of the request: a
minute loop to a duration capped at 45, one gold sample per minute, winner
and win probability derived from the terminal advantage. -/
def simulate (req : MatchRequest) : SimulationResult :=
  let r0 := lcgNext req.seed
  let dur := 25 + r0 % 21
  match (List.range (dur + 1)).foldl simMinuteStep (r0, (0 : ℤ), []) with
  | (_, gd, curve) =>
    { winner := if gd ≥ 0 then "blue" else "red"
      duration_minutes := dur
      blue_win_probability := 1 / 2 + (gd : ℚ) / (2 * ((gd.natAbs : ℚ) + 1))
      gold_curve := curve
      timeline := [{ time := 0, event_type := "spawn", description := "minions spawn" }] }

/-- Modelled from the spec: repeated invocation of the stateless `simulate`
handler (§5: no shared mutable state survives across calls).  The call
index represents which repetition this is; the engine never reads it. -/
def simulateCall (_callIdx : ℕ) (req : MatchRequest) : SimulationResult := simulate req

/-- A concrete request used to exercise `simulateCall`. -/
def req0 : MatchRequest :=
  { blue_team_id := "T1", red_team_id := "GenG"
    blue_draft := initDraft DEFAULTS_blue, red_draft := initDraft DEFAULTS_red
    seed := 42 }

/-! ### MCTS engine root statistics (modelled) -/

/-- The sum of visit counts over the root's direct children. -/
def childVisitSum (children : List (String × ℕ)) : ℕ := (children.map Prod.snd).sum

/-- Increment the visit count of the child at the given index. -/
def bumpVisit : List (String × ℕ) → ℕ → List (String × ℕ)
  | [], _ => []
  | av :: rest, 0 => (av.1, av.2 + 1) :: rest
  | av :: rest, n + 1 => av :: bumpVisit rest n

/-- Modelled from the spec: the MCTS engine (§4.4) is not in the source
tree.  Each iteration descends from the root through exactly one direct
child (expanding a fresh child when untried actions remain) and
backpropagation increments `visit_count` on every node of that path, so
per iteration exactly one root child's visit count grows by one.  The
selection policy (UCB1 with its exploration constant) is abstracted as an
arbitrary function `sel` of the iteration index and current statistics. -/
def mctsLoop (sel : ℕ → List (String × ℕ) → ℕ) : ℕ → List (String × ℕ) → List (String × ℕ)
  | 0, ch => ch
  | n + 1, ch => mctsLoop sel n (bumpVisit ch (sel n ch % ch.length))

/-- Root children before the first iteration: one per legal action, zero
visits each. -/
def initChildren (actions : List String) : List (String × ℕ) := actions.map (fun a => (a, 0))

/-- Modelled from the spec: a recommendation call's search over the root
statistics.  §5's budget cutoff is checked at the top of each outer loop
iteration, so the number of iterations actually completed is
`min iterations budget`. -/
def mctsSearch (sel : ℕ → List (String × ℕ) → ℕ) (actions : List String)
    (iterations budget : ℕ) : List (String × ℕ) :=
  mctsLoop sel (min iterations budget) (initChildren actions)

/-! ## Lemmas and theorems -/

/-! ### Draft invariant (C3) -/

theorem updatePick_length (d : List Pick) (idx : ℕ) (c : String) :
    (updatePick d idx c).length = d.length := by
  simp [updatePick]

theorem enumFrom_update_roles (idx : ℕ) (c : String) :
    ∀ (d : List Pick) (n : ℕ),
      ((List.enumFrom n d).map
          (fun ip => if ip.1 = idx then { ip.2 with champion_id := c } else ip.2)).map Pick.role
        = d.map Pick.role := by
  intro d
  induction d with
  | nil => intro n; rfl
  | cons p rest ih =>
    intro n
    simp only [List.enumFrom, List.map_cons, ih (n + 1)]
    split <;> rfl

theorem updatePick_roles (d : List Pick) (idx : ℕ) (c : String) :
    (updatePick d idx c).map Pick.role = d.map Pick.role := by
  simpa [updatePick, List.enum] using enumFrom_update_roles idx c d 0

/-- C3: both sides of the Simulate page start from a draft of one pick per
role of the 5-element role enum; `updatePick` rewrites only the champion of
one pick, never a role or the pick count; hence every reachable draft state
— so every draft sent with a simulate request — has exactly 5 picks with
pairwise-distinct roles. -/
theorem draft_invariant :
    (∀ (d : List Pick) (idx : ℕ) (c : String),
        (updatePick d idx c).length = d.length ∧
          (updatePick d idx c).map Pick.role = d.map Pick.role) ∧
    ∀ d, DraftReachable d → d.length = 5 ∧ (d.map Pick.role).Nodup := by
  refine ⟨fun d idx c => ⟨updatePick_length d idx c, updatePick_roles d idx c⟩, ?_⟩
  intro d h
  induction h with
  | init_blue => exact ⟨by decide, by decide⟩
  | init_red => exact ⟨by decide, by decide⟩
  | update d idx c _ ih =>
    exact ⟨by rw [updatePick_length]; exact ih.1, by rw [updatePick_roles]; exact ih.2⟩

theorem draft_invariant_witness :
    (initDraft DEFAULTS_blue).length = 5 ∧ ((initDraft DEFAULTS_blue).map Pick.role).Nodup :=
  draft_invariant.2 (initDraft DEFAULTS_blue) DraftReachable.init_blue

/-! ### Phase derivation (C1) -/

/-- C1: the phase field the Coach page places in the LaneState it sends is
exactly the spec's derivation from game_time: early below 840, mid from 840
up to (not including) 1500, late from 1500 on. -/
theorem phase_matches_derivation (myChamp enemyChamp summ2 : String) (gs : GameState) :
    (runAnalysisState myChamp enemyChamp summ2 gs).phase = specPhase gs.game_time := by
  simp only [runAnalysisState, specPhase]
  split_ifs <;> first | rfl | omega

/-! ### Static tables (C7) -/

/-- C7: the enumeration tables are exactly the closed sets the spec names:
ROLES, POSITIONS and WAVE_POSITIONS list precisely the spec's members, and
SUMMONER_SPELLS is a closed duplicate-free 8-element set containing Flash. -/
theorem static_tables_exact :
    ROLES = ["Top", "Jungle", "Mid", "ADC", "Support"] ∧
    POSITIONS = ["under_tower", "safe", "middle", "extended", "river"] ∧
    WAVE_POSITIONS = ["frozen_near_me", "pushing_to_me", "middle", "slow_push_to_them", "crashed"] ∧
    SUMMONER_SPELLS.length = 8 ∧ "Flash" ∈ SUMMONER_SPELLS ∧ SUMMONER_SPELLS.Nodup ∧
    ROLES.Nodup ∧ POSITIONS.Nodup ∧ WAVE_POSITIONS.Nodup := by
  refine ⟨rfl, rfl, rfl, rfl, ?_, ?_, ?_, ?_, ?_⟩ <;> decide

/-! ### Simulation determinism (C2) -/

/-- C2: `simulate` reads nothing but the request, and the seed fixes the
whole pseudorandom stream, so two calls on identical requests (same drafts,
team ids and seed) return identical SimulationResults. -/
theorem simulate_deterministic (i j : ℕ) (r1 r2 : MatchRequest) (h : r1 = r2) :
    simulateCall i r1 = simulateCall j r2 := by
  cases h; rfl

theorem simulate_deterministic_witness : simulateCall 0 req0 = simulateCall 1 req0 :=
  simulate_deterministic 0 1 req0 req0 rfl

/-! ### MCTS visit conservation (C4) -/

theorem bumpVisit_length (ch : List (String × ℕ)) :
    ∀ i, (bumpVisit ch i).length = ch.length := by
  induction ch with
  | nil => intro i; rfl
  | cons av rest ih =>
    intro i
    cases i with
    | zero => rfl
    | succ n => simp [bumpVisit, ih n]

theorem bumpVisit_sum (ch : List (String × ℕ)) :
    ∀ i, i < ch.length → childVisitSum (bumpVisit ch i) = childVisitSum ch + 1 := by
  induction ch with
  | nil => intro i h; exact absurd h (by simp)
  | cons av rest ih =>
    intro i h
    cases i with
    | zero => simp [bumpVisit, childVisitSum]; omega
    | succ n =>
      have hn : n < rest.length := by simpa using h
      simp [bumpVisit, childVisitSum] at ih ⊢
      rw [ih n hn]; omega

theorem mctsLoop_sum (sel : ℕ → List (String × ℕ) → ℕ) :
    ∀ (n : ℕ) (ch : List (String × ℕ)), ch ≠ [] →
      childVisitSum (mctsLoop sel n ch) = childVisitSum ch + n := by
  intro n
  induction n with
  | zero => intro ch _; rfl
  | succ n ih =>
    intro ch hch
    have hlen : 0 < ch.length := List.length_pos.mpr hch
    have hmod : sel n ch % ch.length < ch.length := Nat.mod_lt _ hlen
    have hne : bumpVisit ch (sel n ch % ch.length) ≠ [] := by
      intro hcon
      have := bumpVisit_length ch (sel n ch % ch.length)
      rw [hcon] at this
      simp at this
      omega
    calc childVisitSum (mctsLoop sel (n + 1) ch)
        = childVisitSum (mctsLoop sel n (bumpVisit ch (sel n ch % ch.length))) := rfl
      _ = childVisitSum (bumpVisit ch (sel n ch % ch.length)) + n := ih _ hne
      _ = childVisitSum ch + 1 + n := by rw [bumpVisit_sum ch _ hmod]
      _ = childVisitSum ch + (n + 1) := by omega

theorem initChildren_sum (actions : List String) :
    childVisitSum (initChildren actions) = 0 := by
  induction actions with
  | nil => rfl
  | cons a rest ih => simpa [initChildren, childVisitSum] using ih

/-- C4: after a recommendation call, the visit counts of the root's direct
children sum to the number of iterations actually completed — `iterations`
itself, or the budget when a cutoff fired first — for any selection policy
and any non-empty legal action set. -/
theorem mcts_visit_conservation (sel : ℕ → List (String × ℕ) → ℕ) (actions : List String)
    (iterations budget : ℕ) (h : actions ≠ []) :
    childVisitSum (mctsSearch sel actions iterations budget) = min iterations budget := by
  have hne : initChildren actions ≠ [] := by
    cases actions with
    | nil => exact absurd rfl h
    | cons a rest => simp [initChildren]
  rw [mctsSearch, mctsLoop_sum sel _ _ hne, initChildren_sum, Nat.zero_add]

theorem mcts_visit_conservation_witness :
    childVisitSum (mctsSearch (fun _ _ => 0) ["trade", "all_in"] 5 100) = min 5 100 :=
  mcts_visit_conservation (fun _ _ => 0) ["trade", "all_in"] 5 100 (by decide)

/-! ### Seed range (C10) -/

/-- C10: every seed the Simulate page attaches is a natural number below
100000 — in particular a proper sliver of the 64-bit seed space the data
model allows. -/
theorem seed_in_range (r : ℚ) (h0 : 0 ≤ r) (h1 : r < 1) :
    0 ≤ seedOf r ∧ seedOf r < 100000 ∧ seedOf r < 2 ^ 64 := by
  have hnn : (0 : ℚ) ≤ r * 100000 := by nlinarith
  have hlow : (0 : ℤ) ≤ ⌊r * 100000⌋ := Int.floor_nonneg.mpr hnn
  have hup : ⌊r * 100000⌋ < 100000 := by
    rw [Int.floor_lt]
    push_cast
    nlinarith
  exact ⟨hlow, hup, lt_trans hup (by norm_num)⟩

theorem seed_in_range_witness :
    0 ≤ seedOf (1 / 2) ∧ seedOf (1 / 2) < 100000 ∧ seedOf (1 / 2) < 2 ^ 64 :=
  seed_in_range (1 / 2) (by norm_num) (by norm_num)

/-! ### Confidence bucket (C5) -/

theorem bucketRank_colorClass (p : ℕ) :
    bucketRank (colorClass p) = if 60 ≤ p then 2 else if 35 ≤ p then 1 else 0 := by
  unfold colorClass bucketRank
  split_ifs <;> simp_all

/-- C5: the ConfidenceMeter buckets a parsed percentage by fixed
thresholds — red below 35, amber from 35 to 59, green at 60 and above —
and the bucket is monotone in the embedded percentage: labels whose parsed
percentages are ordered never have their buckets ordered the other way. -/
theorem confidence_bucket_monotone :
    (∀ p : ℕ,
        (p < 35 → colorClass p = "bg-[#f85149]") ∧
        (35 ≤ p → p < 60 → colorClass p = "bg-[#d29922]") ∧
        (60 ≤ p → colorClass p = "bg-[#3fb950]")) ∧
    ∀ l1 l2 : String, pctOf l1 ≤ pctOf l2 →
      bucketRank (colorClass (pctOf l1)) ≤ bucketRank (colorClass (pctOf l2)) := by
  constructor
  · intro p
    refine ⟨fun h => ?_, fun h h2 => ?_, fun h => ?_⟩ <;>
      · unfold colorClass
        split_ifs <;> first | rfl | omega
  · intro l1 l2 h
    rw [bucketRank_colorClass, bucketRank_colorClass]
    split_ifs <;> omega

theorem confidence_bucket_monotone_witness :
    colorClass 20 = "bg-[#f85149]" ∧
      bucketRank (colorClass (pctOf "LOW (20%)")) ≤ bucketRank (colorClass (pctOf "HIGH (78%)")) :=
  ⟨(confidence_bucket_monotone.1 20).1 (by norm_num),
    confidence_bucket_monotone.2 "LOW (20%)" "HIGH (78%)" (by decide)⟩

/-! ### Confidence fallback (C8) -/

theorem takeDigits_append : ∀ l : List Char, (takeDigits l).1 ++ (takeDigits l).2 = l := by
  intro l
  induction l with
  | nil => rfl
  | cons c cs ih =>
    by_cases hd : c.isDigit
    · simp [takeDigits, hd, ih]
    · simp [takeDigits, hd]

theorem takeDigits_digits : ∀ (l : List Char) (c : Char), c ∈ (takeDigits l).1 → c.isDigit = true := by
  intro l
  induction l with
  | nil => intro c h; simp [takeDigits] at h
  | cons d cs ih =>
    intro c h
    by_cases hd : d.isDigit
    · simp [takeDigits, hd] at h
      rcases h with h | h
      · exact h ▸ hd
      · exact ih c h
    · simp [takeDigits, hd] at h

theorem takeDigits_cons_digit (c : Char) (cs : List Char) (h : c.isDigit = true) :
    takeDigits (c :: cs) = (c :: (takeDigits cs).1, (takeDigits cs).2) := by
  simp [takeDigits, h]

theorem hasDigitPct_cons (c : Char) {cs : List Char} (h : hasDigitPct cs) :
    hasDigitPct (c :: cs) := by
  obtain ⟨pre, d, post, heq, hne, hdig⟩ := h
  exact ⟨c :: pre, d, post, by rw [heq]; rfl, hne, hdig⟩

theorem findPct_some_hasDigitPct :
    ∀ (l : List Char) (r : List Char), findPct l = some r → hasDigitPct l := by
  intro l
  induction l with
  | nil => intro r h; simp [findPct] at h
  | cons c cs ih =>
    intro r h
    by_cases hd : c.isDigit
    · rw [findPct, if_pos hd] at h
      split at h
      · rename_i tail heq
        refine ⟨[], (takeDigits (c :: cs)).1, tail, ?_, ?_, ?_⟩
        · rw [List.nil_append, ← heq, takeDigits_append]
        · rw [takeDigits_cons_digit c cs hd]
          exact List.cons_ne_nil _ _
        · exact takeDigits_digits (c :: cs)
      · exact hasDigitPct_cons c (ih r h)
    · rw [findPct, if_neg hd] at h
      exact hasDigitPct_cons c (ih r h)

theorem hasDigitPct_mem {l : List Char} (h : hasDigitPct l) : '%' ∈ l := by
  obtain ⟨pre, d, post, heq, _, _⟩ := h
  rw [heq]
  simp

/-- C8: when the label contains no substring of digits followed by a
percent sign, the regex match fails and the component falls back to a
percentage of exactly 50, rendering an amber bar of width "50%". -/
theorem confidence_fallback (label : String) (h : ¬ hasDigitPct label.data) :
    pctOf label = 50 ∧ colorClass (pctOf label) = "bg-[#d29922]" ∧ barWidth label = "50%" := by
  have hnone : findPct label.data = none := by
    cases heq : findPct label.data with
    | none => rfl
    | some r => exact absurd (findPct_some_hasDigitPct label.data r heq) h
  have hp : pctOf label = 50 := by rw [pctOf, hnone]
  refine ⟨hp, ?_, ?_⟩
  · rw [hp]; rfl
  · rw [barWidth, hp]; rfl

theorem confidence_fallback_witness :
    pctOf "HIGH" = 50 ∧ colorClass (pctOf "HIGH") = "bg-[#d29922]" ∧ barWidth "HIGH" = "50%" :=
  confidence_fallback "HIGH" (fun h => absurd (hasDigitPct_mem h) (by decide))

/-! ### Champion suggestions (C9) -/

/-- C9: for every filter string (and current input value), the suggestion
list holds at most 8 entries, each drawn from the static CHAMPIONS roster
and each containing the active filter text — the filter if non-empty, else
the value — as a case-insensitive substring. -/
theorem champion_suggestions_sound (filter value : String) :
    (championSuggestions filter value).length ≤ 8 ∧
    ∀ c : String, c ∈ championSuggestions filter value →
      c ∈ CHAMPIONS ∧
      containsSub (lowerStr c).data
        (lowerStr (if filter = "" then value else filter)).data = true := by
  constructor
  · exact List.length_take_le 8 _
  · intro c hc
    have hmem := List.mem_of_mem_take hc
    exact List.mem_filter.mp hmem

theorem champion_suggestions_sound_witness :
    "Ahri" ∈ CHAMPIONS ∧
      containsSub (lowerStr "Ahri").data
        (lowerStr (if ("ahr" : String) = "" then "" else "ahr")).data = true :=
  (champion_suggestions_sound "ahr" "").2 "Ahri" (by decide)

/-! ### Coach state invariant (C6) -/

theorem pct_scale_bounds (p M : ℚ) (h0 : 0 ≤ p) (h1 : p ≤ 100) (hM : 0 ≤ M) :
    0 ≤ p / 100 * M ∧ p / 100 * M ≤ M := by
  constructor
  · exact mul_nonneg (div_nonneg h0 (by norm_num)) hM
  · exact mul_le_of_le_one_left hM ((div_le_one (by norm_num)).mpr h1)

/-- C6: for sliders with the hp/mana percentages in [0,100] and levels at
least 1, the LaneState built by runAnalysis satisfies the spec's state
invariant: hp and mana lie between 0 and their maxima, and every cooldown
field — own q/w/e/r, flash and second summoner, and all enemy estimates —
is nonnegative. -/
theorem runAnalysis_state_invariant (myChamp enemyChamp summ2 : String) (gs : GameState)
    (h1 : 0 ≤ gs.my_hp_pct) (h2 : gs.my_hp_pct ≤ 100)
    (h3 : 0 ≤ gs.enemy_hp_pct) (h4 : gs.enemy_hp_pct ≤ 100)
    (h5 : 0 ≤ gs.my_mana_pct) (h6 : gs.my_mana_pct ≤ 100)
    (h7 : 1 ≤ gs.my_level) (h8 : 1 ≤ gs.enemy_level) :
    0 ≤ (runAnalysisState myChamp enemyChamp summ2 gs).my_hp ∧
    (runAnalysisState myChamp enemyChamp summ2 gs).my_hp
      ≤ (runAnalysisState myChamp enemyChamp summ2 gs).my_hp_max ∧
    0 ≤ (runAnalysisState myChamp enemyChamp summ2 gs).my_mana ∧
    (runAnalysisState myChamp enemyChamp summ2 gs).my_mana
      ≤ (runAnalysisState myChamp enemyChamp summ2 gs).my_mana_max ∧
    0 ≤ (runAnalysisState myChamp enemyChamp summ2 gs).enemy_hp ∧
    (runAnalysisState myChamp enemyChamp summ2 gs).enemy_hp
      ≤ (runAnalysisState myChamp enemyChamp summ2 gs).enemy_hp_max ∧
    0 ≤ (runAnalysisState myChamp enemyChamp summ2 gs).my_q_cd ∧
    0 ≤ (runAnalysisState myChamp enemyChamp summ2 gs).my_w_cd ∧
    0 ≤ (runAnalysisState myChamp enemyChamp summ2 gs).my_e_cd ∧
    0 ≤ (runAnalysisState myChamp enemyChamp summ2 gs).my_r_cd ∧
    0 ≤ (runAnalysisState myChamp enemyChamp summ2 gs).my_flash_cd ∧
    0 ≤ (runAnalysisState myChamp enemyChamp summ2 gs).my_summ2_cd ∧
    0 ≤ (runAnalysisState myChamp enemyChamp summ2 gs).enemy_q_cd_est ∧
    0 ≤ (runAnalysisState myChamp enemyChamp summ2 gs).enemy_w_cd_est ∧
    0 ≤ (runAnalysisState myChamp enemyChamp summ2 gs).enemy_e_cd_est ∧
    0 ≤ (runAnalysisState myChamp enemyChamp summ2 gs).enemy_r_cd_est ∧
    0 ≤ (runAnalysisState myChamp enemyChamp summ2 gs).enemy_flash_cd_est := by
  have hl1 : (1 : ℚ) ≤ (gs.my_level : ℚ) := by exact_mod_cast h7
  have hl2 : (1 : ℚ) ≤ (gs.enemy_level : ℚ) := by exact_mod_cast h8
  have hhp : (0 : ℚ) ≤ 570 + ((gs.my_level : ℚ) - 1) * 90 := by nlinarith
  have hehp : (0 : ℚ) ≤ 523 + ((gs.enemy_level : ℚ) - 1) * 85 := by nlinarith
  have hmana : (0 : ℚ) ≤ 418 + ((gs.my_level : ℚ) - 1) * 25 := by nlinarith
  have b1 := pct_scale_bounds gs.my_hp_pct _ h1 h2 hhp
  have b2 := pct_scale_bounds gs.my_mana_pct _ h5 h6 hmana
  have b3 := pct_scale_bounds gs.enemy_hp_pct _ h3 h4 hehp
  simp only [runAnalysisState]
  refine ⟨b1.1, b1.2, b2.1, b2.2, b3.1, b3.2, le_refl 0, le_refl 0, le_refl 0, ?_,
    le_refl 0, le_refl 0, le_refl 0, le_refl 0, le_refl 0, ?_, le_refl 0⟩
  · split_ifs <;> norm_num
  · split_ifs <;> norm_num

theorem runAnalysis_state_invariant_witness :
    0 ≤ (runAnalysisState "Ahri" "Syndra" "Ignite" defaultGs).my_hp ∧
    (runAnalysisState "Ahri" "Syndra" "Ignite" defaultGs).my_hp
      ≤ (runAnalysisState "Ahri" "Syndra" "Ignite" defaultGs).my_hp_max ∧
    0 ≤ (runAnalysisState "Ahri" "Syndra" "Ignite" defaultGs).my_mana ∧
    (runAnalysisState "Ahri" "Syndra" "Ignite" defaultGs).my_mana
      ≤ (runAnalysisState "Ahri" "Syndra" "Ignite" defaultGs).my_mana_max ∧
    0 ≤ (runAnalysisState "Ahri" "Syndra" "Ignite" defaultGs).enemy_hp ∧
    (runAnalysisState "Ahri" "Syndra" "Ignite" defaultGs).enemy_hp
      ≤ (runAnalysisState "Ahri" "Syndra" "Ignite" defaultGs).enemy_hp_max ∧
    0 ≤ (runAnalysisState "Ahri" "Syndra" "Ignite" defaultGs).my_q_cd ∧
    0 ≤ (runAnalysisState "Ahri" "Syndra" "Ignite" defaultGs).my_w_cd ∧
    0 ≤ (runAnalysisState "Ahri" "Syndra" "Ignite" defaultGs).my_e_cd ∧
    0 ≤ (runAnalysisState "Ahri" "Syndra" "Ignite" defaultGs).my_r_cd ∧
    0 ≤ (runAnalysisState "Ahri" "Syndra" "Ignite" defaultGs).my_flash_cd ∧
    0 ≤ (runAnalysisState "Ahri" "Syndra" "Ignite" defaultGs).my_summ2_cd ∧
    0 ≤ (runAnalysisState "Ahri" "Syndra" "Ignite" defaultGs).enemy_q_cd_est ∧
    0 ≤ (runAnalysisState "Ahri" "Syndra" "Ignite" defaultGs).enemy_w_cd_est ∧
    0 ≤ (runAnalysisState "Ahri" "Syndra" "Ignite" defaultGs).enemy_e_cd_est ∧
    0 ≤ (runAnalysisState "Ahri" "Syndra" "Ignite" defaultGs).enemy_r_cd_est ∧
    0 ≤ (runAnalysisState "Ahri" "Syndra" "Ignite" defaultGs).enemy_flash_cd_est :=
  runAnalysis_state_invariant "Ahri" "Syndra" "Ignite" defaultGs
    (by norm_num [defaultGs]) (by norm_num [defaultGs]) (by norm_num [defaultGs])
    (by norm_num [defaultGs]) (by norm_num [defaultGs]) (by norm_num [defaultGs])
    (by norm_num [defaultGs]) (by norm_num [defaultGs])

end RiftEngine
